import Mathlib

/-!
# Automatic pet feeder: actuator timing

A shallow embedding of `src/main.cpp` (the water relay and food servo timing
logic of the feeder) together with theorems about the command callbacks
`waterCatChanged` / `foodCatChanged` and the main `loop`.

Conventions of the embedding

* `uint32_t` and `uint8_t` values are natural numbers; every operation of the
  source that can overflow is followed by an explicit reduction (`u32`, `u8`,
  `sub32`).
* The globals of the program and the levels last written to the two actuator
  outputs form the record `State`.
* Every call of `millis()` is an explicit argument: the callbacks read the
  clock once, `loop` reads it three times (lines 117, 125 and 135).
* Calls to the hardware and to `Serial` are returned as a list of `Effect`s,
  in program order.
-/

namespace AlexaPet

/-! ## Machine arithmetic -/

/-- The constant `UINT32_MAX`, used by `loop` as the "no pending shutoff" value. -/
def UINT32_MAX : Nat := 4294967295

/-- Truncation to `uint32_t`. -/
def u32 (n : Nat) : Nat := n % 4294967296

/-- Truncation to `uint8_t`. -/
def u8 (n : Nat) : Nat := n % 256

/-- Unsigned 32-bit subtraction `a - b` (wraps modulo `2^32`). -/
def sub32 (a b : Nat) : Nat := (u32 a + 4294967296 - u32 b) % 4294967296

/-! ## Data model -/

/-- Output pins written by the program. -/
inductive Pin
  | LED_BUILTIN
  | RELAY
  | SERVO
  deriving DecidableEq, Repr

/-- Observable calls made by the program, in program order. -/
inductive Effect
  | digitalWrite (pin : Pin) (high : Bool)
  | servoWrite (value : Nat)
  | serialPrint (msg : String)
  | serialPrintNum (n : Nat)
  | serialPrintln (msg : String)
  | wdtReset
  deriving DecidableEq, Repr

/-- An `EspalexaDevice` as far as the callbacks look at it: the value its
`getPercent()` returns. -/
structure EspalexaDevice where
  getPercent : Nat
  deriving DecidableEq, Repr

/-- The globals `wifiConnected`, `foodServoOn`, `waterMillis`, `foodMillis`
(lines 34-36) and the values last written to the relay pin and to the servo. -/
structure State where
  wifiConnected : Bool
  foodServoOn : Bool
  waterMillis : Nat
  foodMillis : Nat
  relay : Bool
  servo : Nat
  deriving DecidableEq, Repr

/-- Values of the environment consumed by one iteration of `loop`. -/
structure LoopInput where
  /-- whether `WiFi.status() == WL_CONNECTED` (line 91) -/
  wifiStatus : Bool
  /-- the result of `connectWifi()` should line 108 be reached -/
  connectWifi : Bool
  /-- the reading of `millis()` at line 117 -/
  millis1 : Nat
  /-- the reading of `millis()` at line 125 -/
  millis2 : Nat
  /-- the reading of `millis()` at line 135 -/
  millis3 : Nat
  deriving DecidableEq, Repr

/-! ## Callbacks (lines 196-233) -/

/-- The expression `60000 + (uint32_t)percent * 1000` of line 204. -/
def waterDelta (percent : Nat) : Nat := u32 (60000 + u32 (u32 percent * 1000))

/-- The expression `1000 + (uint32_t)percent * 100` of line 225. -/
def foodDelta (percent : Nat) : Nat := u32 (1000 + u32 (u32 percent * 100))

/-- The callback `waterCatChanged` (lines 196-212). `d = none` is the null
pointer, `millis` the clock reading of line 205. -/
def waterCatChanged (s : State) (millis : Nat) (d : Option EspalexaDevice) :
    State × List Effect :=
  match d with
  | none => (s, [])
  | some dev =>
    let percent := u8 dev.getPercent
    let level := if percent == 0 then false else true
    let delta := waterDelta percent
    ({ s with relay := level, waterMillis := u32 (millis + delta) },
      [Effect.digitalWrite Pin.RELAY level,
       Effect.serialPrint "Água do Gato: ",
       Effect.serialPrintNum percent,
       Effect.serialPrint "%   -   ",
       Effect.serialPrintNum (delta / 1000),
       Effect.serialPrintln "s"])

/-- The callback `foodCatChanged` (lines 215-233). -/
def foodCatChanged (s : State) (millis : Nat) (d : Option EspalexaDevice) :
    State × List Effect :=
  match d with
  | none => (s, [])
  | some dev =>
    let percent := u8 dev.getPercent
    let value := if percent == 0 then 90 else 120
    let active := if percent != 0 then true else false
    let delta := foodDelta percent
    ({ s with servo := value, foodServoOn := active, foodMillis := u32 (millis + delta) },
      [Effect.servoWrite value,
       Effect.serialPrint "Ração do Gato: ",
       Effect.serialPrintNum percent,
       Effect.serialPrint "%   -   ",
       Effect.serialPrintNum delta,
       Effect.serialPrintln "ms"])

/-! ## Setup and main loop -/

/-- The state and the actuator writes at the end of `setup` (lines 45-84):
the globals keep their initialisers except `wifiConnected`, which receives the
result of `connectWifi()`; the relay is written LOW and the servo 90. -/
def setup (connect : Bool) : State × List Effect :=
  ({ wifiConnected := connect, foodServoOn := false, waterMillis := 0, foodMillis := 0,
     relay := false, servo := 90 },
    [Effect.digitalWrite Pin.LED_BUILTIN true,
     Effect.digitalWrite Pin.RELAY false,
     Effect.servoWrite 90,
     Effect.digitalWrite Pin.LED_BUILTIN false])

/-- Lines 90-114 of `loop`: the Wi-Fi test. `espAlexa.loop()` itself changes no
global; the callbacks it may invoke are the separate steps `waterCatChanged`
and `foodCatChanged`. -/
def loopWifi (s : State) (i : LoopInput) : State × List Effect :=
  if i.wifiStatus == false then
    (s, [Effect.digitalWrite Pin.LED_BUILTIN false])
  else if s.wifiConnected == true then
    (s, [Effect.digitalWrite Pin.LED_BUILTIN true])
  else
    ({ s with servo := 90, wifiConnected := i.connectWifi },
      [Effect.digitalWrite Pin.LED_BUILTIN true, Effect.servoWrite 90])

/-- Lines 116-122 of `loop`: turn off the water relay. -/
def loopWater (s : State) (millis : Nat) : State × List Effect :=
  if millis > s.waterMillis then
    ({ s with waterMillis := UINT32_MAX, relay := false },
      [Effect.digitalWrite Pin.RELAY false,
       Effect.serialPrintln "Turn off the water relay."])
  else (s, [])

/-- Lines 124-131 of `loop`: turn off the food servo. -/
def loopFood (s : State) (millis : Nat) : State × List Effect :=
  if millis > s.foodMillis then
    ({ s with foodMillis := UINT32_MAX, servo := 90, foodServoOn := false },
      [Effect.servoWrite 90,
       Effect.serialPrintln "Turn off the food servo."])
  else (s, [])

/-- The expression `((foodMillis - millis()) / 1000) % 2 ? 60 : 120` of line 135. -/
def servoValue (foodMillis millis : Nat) : Nat :=
  if (sub32 foodMillis millis / 1000) % 2 != 0 then 60 else 120

/-- Lines 132-141 of `loop`: alternate the servo direction every second. -/
def loopServo (s : State) (millis : Nat) : State × List Effect :=
  if s.foodServoOn == true then
    let value := servoValue s.foodMillis millis
    ({ s with servo := value }, [Effect.servoWrite value])
  else
    ({ s with servo := 90 }, [Effect.servoWrite 90])

/-- One iteration of `loop` (lines 88-145). -/
def loop (s : State) (i : LoopInput) : State × List Effect :=
  let r0 := loopWifi s i
  let r1 := loopWater r0.1 i.millis1
  let r2 := loopFood r1.1 i.millis2
  let r3 := loopServo r2.1 i.millis3
  (r3.1, r0.2 ++ r1.2 ++ r2.2 ++ r3.2 ++ [Effect.wdtReset])

/-- The input of an iteration of `loop` whose three clock readings are all `now`. -/
def atClock (wifiStatus connectWifi : Bool) (now : Nat) : LoopInput :=
  { wifiStatus := wifiStatus, connectWifi := connectWifi,
    millis1 := now, millis2 := now, millis3 := now }

/-- Successive iterations of `loop`, with the accumulated effects. -/
def run (s : State) : List LoopInput → State × List Effect
  | [] => (s, [])
  | i :: is =>
    let r := loop s i
    let rest := run r.1 is
    (rest.1, r.2 ++ rest.2)

/-- A loop input all of whose clock readings are 32-bit values. -/
def LoopInput.clock32 (i : LoopInput) : Prop :=
  i.millis1 ≤ UINT32_MAX ∧ i.millis2 ≤ UINT32_MAX ∧ i.millis3 ≤ UINT32_MAX

/-- The state in which lines 132-141 of `loop` run: the one left by the Wi-Fi
test and the two expiry checks. -/
def servoEntry (s : State) (i : LoopInput) : State :=
  (loopFood (loopWater (loopWifi s i).1 i.millis1).1 i.millis2).1

/-- What can happen to the program between two observations: one of the two
callbacks is invoked, or `loop` runs once. -/
inductive Event
  | water (millis : Nat) (d : Option EspalexaDevice)
  | food (millis : Nat) (d : Option EspalexaDevice)
  | tick (i : LoopInput)
  deriving DecidableEq, Repr

/-- The state after one event. -/
def step (s : State) : Event → State
  | Event.water millis d => (waterCatChanged s millis d).1
  | Event.food millis d => (foodCatChanged s millis d).1
  | Event.tick i => (loop s i).1

/-- The state after a sequence of events, oldest first. -/
def exec (s : State) (evs : List Event) : State := evs.foldl step s

/-- Whether an event is a command whose computed deadline `millis() + delta`
is the value `UINT32_MAX`. -/
def Event.armsSentinel : Event → Bool
  | Event.water millis (some dev) => u32 (millis + waterDelta (u8 dev.getPercent)) == UINT32_MAX
  | Event.food millis (some dev) => u32 (millis + foodDelta (u8 dev.getPercent)) == UINT32_MAX
  | _ => false

/-- An event all of whose values are in their nominal range: a percent in
0..100 and 32-bit clock readings. -/
def Event.inRange : Event → Bool
  | Event.water millis (some dev) => decide (millis ≤ UINT32_MAX ∧ dev.getPercent ≤ 100)
  | Event.food millis (some dev) => decide (millis ≤ UINT32_MAX ∧ dev.getPercent ≤ 100)
  | Event.water millis none => decide (millis ≤ UINT32_MAX)
  | Event.food millis none => decide (millis ≤ UINT32_MAX)
  | Event.tick i =>
    decide (i.millis1 ≤ UINT32_MAX ∧ i.millis2 ≤ UINT32_MAX ∧ i.millis3 ≤ UINT32_MAX)

/-! ## Auxiliary facts -/

theorem u8_of_le {p : Nat} (h : p ≤ 255) : u8 p = p := by
  unfold u8; omega

theorem waterDelta_of_le {p : Nat} (h : p ≤ 255) : waterDelta p = 60000 + p * 1000 := by
  unfold waterDelta u32; omega

theorem foodDelta_of_le {p : Nat} (h : p ≤ 255) : foodDelta p = 1000 + p * 100 := by
  unfold foodDelta u32; omega

/-! ### The four blocks of `loop`, field by field -/

theorem loopWifi_fields (s : State) (i : LoopInput) :
    (loopWifi s i).1.waterMillis = s.waterMillis ∧ (loopWifi s i).1.relay = s.relay ∧
    (loopWifi s i).1.foodMillis = s.foodMillis ∧
    (loopWifi s i).1.foodServoOn = s.foodServoOn := by
  unfold loopWifi
  split_ifs <;> exact ⟨rfl, rfl, rfl, rfl⟩

theorem loopWater_fields (s : State) (m : Nat) :
    (loopWater s m).1.waterMillis = (if m > s.waterMillis then UINT32_MAX else s.waterMillis) ∧
    (loopWater s m).1.relay = (if m > s.waterMillis then false else s.relay) ∧
    (loopWater s m).1.foodMillis = s.foodMillis ∧
    (loopWater s m).1.foodServoOn = s.foodServoOn := by
  unfold loopWater
  split_ifs <;> exact ⟨rfl, rfl, rfl, rfl⟩

theorem loopFood_fields (s : State) (m : Nat) :
    (loopFood s m).1.waterMillis = s.waterMillis ∧ (loopFood s m).1.relay = s.relay ∧
    (loopFood s m).1.foodMillis = (if m > s.foodMillis then UINT32_MAX else s.foodMillis) ∧
    (loopFood s m).1.foodServoOn = (if m > s.foodMillis then false else s.foodServoOn) := by
  unfold loopFood
  split_ifs <;> exact ⟨rfl, rfl, rfl, rfl⟩

theorem loopServo_fields (s : State) (m : Nat) :
    (loopServo s m).1.waterMillis = s.waterMillis ∧ (loopServo s m).1.relay = s.relay ∧
    (loopServo s m).1.foodMillis = s.foodMillis ∧
    (loopServo s m).1.foodServoOn = s.foodServoOn ∧
    (loopServo s m).1.servo
      = (if s.foodServoOn = true then servoValue s.foodMillis m else 90) := by
  unfold loopServo
  by_cases h : s.foodServoOn = true
  · simp [h]
  · simp [h]

/-! ### Fields of the state after one iteration of `loop` -/

theorem loop_waterMillis (s : State) (i : LoopInput) :
    (loop s i).1.waterMillis
      = if i.millis1 > s.waterMillis then UINT32_MAX else s.waterMillis := by
  show (loopServo _ _).1.waterMillis = _
  rw [(loopServo_fields _ _).1, (loopFood_fields _ _).1, (loopWater_fields _ _).1,
    (loopWifi_fields _ _).1]

theorem loop_relay (s : State) (i : LoopInput) :
    (loop s i).1.relay = if i.millis1 > s.waterMillis then false else s.relay := by
  show (loopServo _ _).1.relay = _
  rw [(loopServo_fields _ _).2.1, (loopFood_fields _ _).2.1, (loopWater_fields _ _).2.1,
    (loopWifi_fields _ _).1, (loopWifi_fields _ _).2.1]

theorem loop_foodMillis (s : State) (i : LoopInput) :
    (loop s i).1.foodMillis
      = if i.millis2 > s.foodMillis then UINT32_MAX else s.foodMillis := by
  show (loopServo _ _).1.foodMillis = _
  rw [(loopServo_fields _ _).2.2.1, (loopFood_fields _ _).2.2.1, (loopWater_fields _ _).2.2.1,
    (loopWifi_fields _ _).2.2.1]

theorem loop_foodServoOn (s : State) (i : LoopInput) :
    (loop s i).1.foodServoOn = if i.millis2 > s.foodMillis then false else s.foodServoOn := by
  show (loopServo _ _).1.foodServoOn = _
  rw [(loopServo_fields _ _).2.2.2.1, (loopFood_fields _ _).2.2.2, (loopWater_fields _ _).2.2.1,
    (loopWater_fields _ _).2.2.2, (loopWifi_fields _ _).2.2.1, (loopWifi_fields _ _).2.2.2]

theorem loop_servo (s : State) (i : LoopInput) :
    (loop s i).1.servo
      = if i.millis2 > s.foodMillis then 90
        else if s.foodServoOn = true then servoValue s.foodMillis i.millis3 else 90 := by
  show (loopServo _ _).1.servo = _
  rw [(loopServo_fields _ _).2.2.2.2, (loopFood_fields _ _).2.2.2, (loopFood_fields _ _).2.2.1,
    (loopWater_fields _ _).2.2.1, (loopWater_fields _ _).2.2.2, (loopWifi_fields _ _).2.2.1,
    (loopWifi_fields _ _).2.2.2]
  by_cases h : i.millis2 > s.foodMillis
  · simp [h]
  · simp [h]

/-! ### Effects of the blocks and of one iteration of `loop` -/

theorem loopWifi_effects (s : State) (i : LoopInput) (e : Effect) :
    e ∈ (loopWifi s i).2 ↔
      (e = Effect.digitalWrite Pin.LED_BUILTIN i.wifiStatus ∨
       (e = Effect.servoWrite 90 ∧ i.wifiStatus = true ∧ s.wifiConnected = false)) := by
  unfold loopWifi
  cases hw : i.wifiStatus <;> cases hc : s.wifiConnected <;> simp

theorem loopWater_effects (s : State) (m : Nat) (e : Effect) :
    e ∈ (loopWater s m).2 ↔
      (m > s.waterMillis ∧ (e = Effect.digitalWrite Pin.RELAY false ∨
        e = Effect.serialPrintln "Turn off the water relay.")) := by
  unfold loopWater
  by_cases h : m > s.waterMillis
  · simp [h]
  · simp [h]

theorem loopFood_effects (s : State) (m : Nat) (e : Effect) :
    e ∈ (loopFood s m).2 ↔
      (m > s.foodMillis ∧ (e = Effect.servoWrite 90 ∨
        e = Effect.serialPrintln "Turn off the food servo.")) := by
  unfold loopFood
  by_cases h : m > s.foodMillis
  · simp [h]
  · simp [h]

theorem loopServo_effects (s : State) (m : Nat) :
    (loopServo s m).2 = [Effect.servoWrite (loopServo s m).1.servo] := by
  unfold loopServo
  by_cases h : s.foodServoOn = true
  · simp [h]
  · simp [h]

theorem loop_effects (s : State) (i : LoopInput) (e : Effect) :
    e ∈ (loop s i).2 ↔
      (e = Effect.digitalWrite Pin.LED_BUILTIN i.wifiStatus ∨
       (e = Effect.servoWrite 90 ∧ i.wifiStatus = true ∧ s.wifiConnected = false) ∨
       (i.millis1 > s.waterMillis ∧ (e = Effect.digitalWrite Pin.RELAY false ∨
          e = Effect.serialPrintln "Turn off the water relay.")) ∨
       (i.millis2 > s.foodMillis ∧ (e = Effect.servoWrite 90 ∨
          e = Effect.serialPrintln "Turn off the food servo.")) ∨
       e = Effect.servoWrite (loop s i).1.servo ∨
       e = Effect.wdtReset) := by
  have hw := loopWifi_fields s i
  have ha := loopWater_fields (loopWifi s i).1 i.millis1
  show e ∈ (loopWifi s i).2 ++ (loopWater _ _).2 ++ (loopFood _ _).2 ++ (loopServo _ _).2
      ++ [Effect.wdtReset] ↔ _
  simp only [List.mem_append, loopWifi_effects, loopWater_effects, loopFood_effects,
    loopServo_effects, List.mem_singleton, hw.1, ha.2.2.1, hw.2.2.1]
  have : (loopServo (loopFood (loopWater (loopWifi s i).1 i.millis1).1 i.millis2).1
      i.millis3).1 = (loop s i).1 := rfl
  rw [this]
  tauto

theorem loop_relay_write (s : State) (i : LoopInput) (b : Bool) :
    Effect.digitalWrite Pin.RELAY b ∈ (loop s i).2 ↔ (b = false ∧ i.millis1 > s.waterMillis) := by
  rw [loop_effects]
  simp
  tauto

theorem loop_water_message (s : State) (i : LoopInput) :
    Effect.serialPrintln "Turn off the water relay." ∈ (loop s i).2
      ↔ i.millis1 > s.waterMillis := by
  rw [loop_effects]
  simp

theorem loop_food_message (s : State) (i : LoopInput) :
    Effect.serialPrintln "Turn off the food servo." ∈ (loop s i).2
      ↔ i.millis2 > s.foodMillis := by
  rw [loop_effects]
  simp

theorem loop_servo_write (s : State) (i : LoopInput) (v : Nat) :
    Effect.servoWrite v ∈ (loop s i).2 ↔
      (v = (loop s i).1.servo ∨ (v = 90 ∧ i.millis2 > s.foodMillis) ∨
       (v = 90 ∧ i.wifiStatus = true ∧ s.wifiConnected = false)) := by
  rw [loop_effects]
  simp
  tauto

theorem sub32_of_le {d now : Nat} (hd : d ≤ UINT32_MAX) (h : now ≤ d) :
    sub32 d now = d - now := by
  unfold UINT32_MAX at hd
  unfold sub32 u32
  omega

theorem servoValue_of_le {d now : Nat} (hd : d ≤ UINT32_MAX) (h : now ≤ d) :
    servoValue d now = if ((d - now) / 1000) % 2 = 0 then 120 else 60 := by
  unfold servoValue
  rw [sub32_of_le hd h]
  by_cases hp : ((d - now) / 1000) % 2 = 0
  · simp [hp]
  · simp [hp]

theorem servoValue_mem (d now : Nat) : servoValue d now = 120 ∨ servoValue d now = 60 := by
  unfold servoValue
  by_cases hp : (sub32 d now / 1000) % 2 = 0
  · simp [hp]
  · simp [hp]

/-! ### One iteration of `loop` at a single clock value -/

theorem loop_atClock_cases (s : State) (w c : Bool) (now : Nat) :
    (now ≤ s.waterMillis →
      (loop s (atClock w c now)).1.relay = s.relay ∧
      (loop s (atClock w c now)).1.waterMillis = s.waterMillis ∧
      ∀ b, Effect.digitalWrite Pin.RELAY b ∉ (loop s (atClock w c now)).2) ∧
    (now > s.waterMillis →
      (loop s (atClock w c now)).1.relay = false ∧
      (loop s (atClock w c now)).1.waterMillis = UINT32_MAX ∧
      Effect.digitalWrite Pin.RELAY false ∈ (loop s (atClock w c now)).2) ∧
    (now ≤ s.foodMillis →
      (loop s (atClock w c now)).1.foodServoOn = s.foodServoOn ∧
      (loop s (atClock w c now)).1.foodMillis = s.foodMillis ∧
      (s.foodServoOn = true → (loop s (atClock w c now)).1.servo = 120 ∨
        (loop s (atClock w c now)).1.servo = 60)) ∧
    (now > s.foodMillis →
      (loop s (atClock w c now)).1.foodServoOn = false ∧
      (loop s (atClock w c now)).1.servo = 90 ∧
      (loop s (atClock w c now)).1.foodMillis = UINT32_MAX) := by
  refine ⟨fun h => ?_, fun h => ?_, fun h => ?_, fun h => ?_⟩
  · have hn : ¬ (atClock w c now).millis1 > s.waterMillis := by
      show ¬ now > s.waterMillis
      omega
    refine ⟨?_, ?_, ?_⟩
    · rw [loop_relay, if_neg hn]
    · rw [loop_waterMillis, if_neg hn]
    · intro b hb
      exact hn ((loop_relay_write s _ b).1 hb).2
  · have hn : (atClock w c now).millis1 > s.waterMillis := h
    refine ⟨?_, ?_, ?_⟩
    · rw [loop_relay, if_pos hn]
    · rw [loop_waterMillis, if_pos hn]
    · exact (loop_relay_write s _ false).2 ⟨rfl, hn⟩
  · have hn : ¬ (atClock w c now).millis2 > s.foodMillis := by
      show ¬ now > s.foodMillis
      omega
    refine ⟨?_, ?_, ?_⟩
    · rw [loop_foodServoOn, if_neg hn]
    · rw [loop_foodMillis, if_neg hn]
    · intro hon
      rw [loop_servo, if_neg hn, if_pos hon]
      exact servoValue_mem _ _
  · have hn : (atClock w c now).millis2 > s.foodMillis := h
    refine ⟨?_, ?_, ?_⟩
    · rw [loop_foodServoOn, if_pos hn]
    · rw [loop_servo, if_pos hn]
    · rw [loop_foodMillis, if_pos hn]

/-! ### Idle actuators stay idle -/

theorem run_water_idle (js : List LoopInput) :
    ∀ s : State, (∀ j ∈ js, j.clock32) → s.waterMillis = UINT32_MAX → s.relay = false →
      (run s js).1.waterMillis = UINT32_MAX ∧ (run s js).1.relay = false ∧
      ∀ e ∈ (run s js).2, (∀ b, e ≠ Effect.digitalWrite Pin.RELAY b) ∧
        e ≠ Effect.serialPrintln "Turn off the water relay." := by
  induction js with
  | nil =>
    intro s _ hm hr
    exact ⟨hm, hr, fun e he => absurd he (List.not_mem_nil e)⟩
  | cons j js ih =>
    intro s hjs hm hr
    have hj : j.clock32 := hjs j (List.mem_cons_self j js)
    have hn : ¬ j.millis1 > s.waterMillis := by
      rw [hm]; exact Nat.not_lt.mpr hj.1
    have hm1 : (loop s j).1.waterMillis = UINT32_MAX := by
      rw [loop_waterMillis, if_neg hn, hm]
    have hr1 : (loop s j).1.relay = false := by
      rw [loop_relay, if_neg hn, hr]
    have hrest := ih (loop s j).1 (fun k hk => hjs k (List.mem_cons_of_mem j hk)) hm1 hr1
    refine ⟨hrest.1, hrest.2.1, ?_⟩
    intro e he
    have he2 : e ∈ (loop s j).2 ++ (run (loop s j).1 js).2 := he
    rcases List.mem_append.1 he2 with h | h
    · refine ⟨fun b hb => ?_, fun hb => ?_⟩
      · rw [hb] at h
        exact hn ((loop_relay_write s j b).1 h).2
      · rw [hb] at h
        exact hn ((loop_water_message s j).1 h)
    · exact hrest.2.2 e h

theorem run_food_idle (js : List LoopInput) :
    ∀ s : State, (∀ j ∈ js, j.clock32) → s.foodMillis = UINT32_MAX → s.foodServoOn = false →
      s.servo = 90 →
      (run s js).1.foodMillis = UINT32_MAX ∧ (run s js).1.foodServoOn = false ∧
      (run s js).1.servo = 90 ∧
      ∀ e ∈ (run s js).2, (∀ v, e = Effect.servoWrite v → v = 90) ∧
        e ≠ Effect.serialPrintln "Turn off the food servo." := by
  induction js with
  | nil =>
    intro s _ hm hr hs
    exact ⟨hm, hr, hs, fun e he => absurd he (List.not_mem_nil e)⟩
  | cons j js ih =>
    intro s hjs hm hr hs
    have hj : j.clock32 := hjs j (List.mem_cons_self j js)
    have hn : ¬ j.millis2 > s.foodMillis := by
      rw [hm]; exact Nat.not_lt.mpr hj.2.1
    have hm1 : (loop s j).1.foodMillis = UINT32_MAX := by
      rw [loop_foodMillis, if_neg hn, hm]
    have hr1 : (loop s j).1.foodServoOn = false := by
      rw [loop_foodServoOn, if_neg hn, hr]
    have hs1 : (loop s j).1.servo = 90 := by
      rw [loop_servo, if_neg hn, hr]
      simp
    have hrest := ih (loop s j).1 (fun k hk => hjs k (List.mem_cons_of_mem j hk)) hm1 hr1 hs1
    refine ⟨hrest.1, hrest.2.1, hrest.2.2.1, ?_⟩
    intro e he
    have he2 : e ∈ (loop s j).2 ++ (run (loop s j).1 js).2 := he
    rcases List.mem_append.1 he2 with h | h
    · refine ⟨fun v hv => ?_, fun hb => ?_⟩
      · rw [hv, loop_servo_write, hs1] at h
        rcases h with h | h | h
        · exact h
        · exact h.1
        · exact h.1
      · rw [hb] at h
        exact hn ((loop_food_message s j).1 h)
    · exact hrest.2.2.2 e h

/-! ### Active actuators and the value `UINT32_MAX` -/

theorem step_active_deadline (s : State) (e : Event) (he : e.armsSentinel = false)
    (h : (s.foodServoOn = true → s.foodMillis ≠ UINT32_MAX) ∧
      (s.relay = true → s.waterMillis ≠ UINT32_MAX)) :
    ((step s e).foodServoOn = true → (step s e).foodMillis ≠ UINT32_MAX) ∧
      ((step s e).relay = true → (step s e).waterMillis ≠ UINT32_MAX) := by
  cases e with
  | water millis d =>
    cases d with
    | none => exact h
    | some dev =>
      have hne : u32 (millis + waterDelta (u8 dev.getPercent)) ≠ UINT32_MAX := by
        intro hc
        have h1 : (u32 (millis + waterDelta (u8 dev.getPercent)) == UINT32_MAX) = false := he
        rw [hc] at h1
        simp at h1
      exact ⟨h.1, fun _ => hne⟩
  | food millis d =>
    cases d with
    | none => exact h
    | some dev =>
      have hne : u32 (millis + foodDelta (u8 dev.getPercent)) ≠ UINT32_MAX := by
        intro hc
        have h1 : (u32 (millis + foodDelta (u8 dev.getPercent)) == UINT32_MAX) = false := he
        rw [hc] at h1
        simp at h1
      exact ⟨fun _ => hne, h.2⟩
  | tick i =>
    constructor
    · intro hon
      have hon2 : (loop s i).1.foodServoOn = true := hon
      show (loop s i).1.foodMillis ≠ UINT32_MAX
      rw [loop_foodServoOn] at hon2
      rw [loop_foodMillis]
      by_cases hx : i.millis2 > s.foodMillis
      · rw [if_pos hx] at hon2
        exact Bool.noConfusion hon2
      · rw [if_neg hx] at hon2
        rw [if_neg hx]
        exact h.1 hon2
    · intro hon
      have hon2 : (loop s i).1.relay = true := hon
      show (loop s i).1.waterMillis ≠ UINT32_MAX
      rw [loop_relay] at hon2
      rw [loop_waterMillis]
      by_cases hx : i.millis1 > s.waterMillis
      · rw [if_pos hx] at hon2
        exact Bool.noConfusion hon2
      · rw [if_neg hx] at hon2
        rw [if_neg hx]
        exact h.2 hon2

theorem exec_active_deadline (evs : List Event) :
    ∀ s : State, (∀ e ∈ evs, e.armsSentinel = false) →
      ((s.foodServoOn = true → s.foodMillis ≠ UINT32_MAX) ∧
        (s.relay = true → s.waterMillis ≠ UINT32_MAX)) →
      (((exec s evs).foodServoOn = true → (exec s evs).foodMillis ≠ UINT32_MAX) ∧
        ((exec s evs).relay = true → (exec s evs).waterMillis ≠ UINT32_MAX)) := by
  induction evs with
  | nil => intro s _ h; exact h
  | cons e evs ih =>
    intro s hev h
    have h1 := step_active_deadline s e (hev e (List.mem_cons_self e evs)) h
    exact ih (step s e) (fun k hk => hev k (List.mem_cons_of_mem e hk)) h1

/-! ## The command callbacks -/

/-- C1: for every prior state, every 32-bit clock value `now` and every percent
in 0..100, `waterCatChanged` computes the delay `60000 + percent * 1000`, stores
the deadline `waterMillis = (now + 60000 + percent * 1000) mod 2^32`, writes
the relay high iff `percent > 0` (low when `percent = 0`, whatever the former
deadline was) and leaves the food variables alone. -/
theorem waterCatChanged_post (s : State) (now percent : Nat)
    (hnow : now ≤ UINT32_MAX) (hp : percent ≤ 100) :
    waterDelta percent = 60000 + percent * 1000 ∧
    (waterCatChanged s now (some ⟨percent⟩)).1.waterMillis
      = (now + 60000 + percent * 1000) % 2 ^ 32 ∧
    ((waterCatChanged s now (some ⟨percent⟩)).1.relay = true ↔ 0 < percent) ∧
    (percent = 0 → (waterCatChanged s now (some ⟨percent⟩)).1.relay = false) ∧
    (waterCatChanged s now (some ⟨percent⟩)).2.head?
      = some (Effect.digitalWrite Pin.RELAY (decide (0 < percent))) ∧
    (waterCatChanged s now (some ⟨percent⟩)).1.foodMillis = s.foodMillis ∧
    (waterCatChanged s now (some ⟨percent⟩)).1.foodServoOn = s.foodServoOn ∧
    (waterCatChanged s now (some ⟨percent⟩)).1.servo = s.servo := by
  have h8 : u8 percent = percent := u8_of_le (by omega)
  have hd : waterDelta percent = 60000 + percent * 1000 := waterDelta_of_le (by omega)
  have _ := hnow
  simp only [waterCatChanged, h8, hd, u32]
  refine ⟨trivial, ?_, ?_, ?_, ?_, trivial, trivial, trivial⟩
  · norm_num [Nat.add_assoc]
  · rcases Nat.eq_zero_or_pos percent with h | h
    · subst h; simp
    · have : percent ≠ 0 := by omega
      simp [this, h]
  · intro h; subst h; simp
  · rcases Nat.eq_zero_or_pos percent with h | h
    · subst h; simp
    · have : percent ≠ 0 := by omega
      simp [this, h]

/-- C1, the scenario of the specification: a water command at `now = 1000` with
`percent = 10`, on a state with the older deadline 5000, gives delay 70000,
deadline 71000 and the relay on. -/
theorem waterCatChanged_post_witness :
    ((1000 : Nat) ≤ UINT32_MAX ∧ (10 : Nat) ≤ 100) ∧
    waterDelta 10 = 70000 ∧
    (waterCatChanged ⟨true, false, 5000, 0, false, 90⟩ 1000 (some ⟨10⟩)).1.waterMillis
      = 71000 ∧
    (waterCatChanged ⟨true, false, 5000, 0, false, 90⟩ 1000 (some ⟨10⟩)).1.relay = true ∧
    (waterCatChanged ⟨true, false, 5000, 0, false, 90⟩ 1000 (some ⟨10⟩)).2.head?
      = some (Effect.digitalWrite Pin.RELAY true) :=
  ⟨⟨by decide, by decide⟩,
   (waterCatChanged_post ⟨true, false, 5000, 0, false, 90⟩ 1000 10 (by decide)
      (by decide)).1.trans (by decide),
   (waterCatChanged_post ⟨true, false, 5000, 0, false, 90⟩ 1000 10 (by decide)
      (by decide)).2.1.trans (by decide),
   (waterCatChanged_post ⟨true, false, 5000, 0, false, 90⟩ 1000 10 (by decide)
      (by decide)).2.2.1.2 (by decide),
   (waterCatChanged_post ⟨true, false, 5000, 0, false, 90⟩ 1000 10 (by decide)
      (by decide)).2.2.2.2.1.trans (by decide)⟩

/-- C2: for every prior state, every 32-bit clock value `now` and every percent
in 0..100, `foodCatChanged` computes the delay `1000 + percent * 100`, stores the
deadline `foodMillis = (now + 1000 + percent * 100) mod 2^32`, sets
`foodServoOn = (percent != 0)`, writes the servo to 90 when `percent = 0` and to
120 otherwise, and leaves the water variables alone. -/
theorem foodCatChanged_post (s : State) (now percent : Nat)
    (hnow : now ≤ UINT32_MAX) (hp : percent ≤ 100) :
    foodDelta percent = 1000 + percent * 100 ∧
    (foodCatChanged s now (some ⟨percent⟩)).1.foodMillis
      = (now + 1000 + percent * 100) % 2 ^ 32 ∧
    (foodCatChanged s now (some ⟨percent⟩)).1.foodServoOn = decide (percent ≠ 0) ∧
    (foodCatChanged s now (some ⟨percent⟩)).1.servo = (if percent = 0 then 90 else 120) ∧
    (foodCatChanged s now (some ⟨percent⟩)).2.head?
      = some (Effect.servoWrite (if percent = 0 then 90 else 120)) ∧
    (foodCatChanged s now (some ⟨percent⟩)).1.waterMillis = s.waterMillis ∧
    (foodCatChanged s now (some ⟨percent⟩)).1.relay = s.relay := by
  have h8 : u8 percent = percent := u8_of_le (by omega)
  have hd : foodDelta percent = 1000 + percent * 100 := foodDelta_of_le (by omega)
  have _ := hnow
  simp only [foodCatChanged, h8, hd, u32]
  refine ⟨trivial, ?_, ?_, ?_, ?_, trivial, trivial⟩
  · norm_num [Nat.add_assoc]
  · by_cases h : percent = 0 <;> simp [h]
  · by_cases h : percent = 0 <;> simp [h]
  · by_cases h : percent = 0 <;> simp [h]

/-- C2, the scenarios of the specification: at `now = 0`, `percent = 50` the
delay and the deadline are 6000 and the actuator is active; at `now = 2000`,
`percent = 0`, on a state whose servo is active with deadline 9000, the servo is
written to 90 and `foodServoOn` becomes false. -/
theorem foodCatChanged_post_witness :
    ((0 : Nat) ≤ UINT32_MAX ∧ (50 : Nat) ≤ 100 ∧ (2000 : Nat) ≤ UINT32_MAX ∧ (0 : Nat) ≤ 100) ∧
    (foodDelta 50 = 6000 ∧
     (foodCatChanged ⟨true, false, 0, 0, false, 90⟩ 0 (some ⟨50⟩)).1.foodMillis = 6000 ∧
     (foodCatChanged ⟨true, false, 0, 0, false, 90⟩ 0 (some ⟨50⟩)).1.foodServoOn = true ∧
     (foodCatChanged ⟨true, false, 0, 0, false, 90⟩ 0 (some ⟨50⟩)).1.servo = 120) ∧
    ((foodCatChanged ⟨true, true, 0, 9000, false, 120⟩ 2000 (some ⟨0⟩)).1.foodMillis = 3000 ∧
     (foodCatChanged ⟨true, true, 0, 9000, false, 120⟩ 2000 (some ⟨0⟩)).1.foodServoOn = false ∧
     (foodCatChanged ⟨true, true, 0, 9000, false, 120⟩ 2000 (some ⟨0⟩)).1.servo = 90 ∧
     (foodCatChanged ⟨true, true, 0, 9000, false, 120⟩ 2000 (some ⟨0⟩)).2.head?
       = some (Effect.servoWrite 90)) :=
  ⟨⟨by decide, by decide, by decide, by decide⟩,
   ⟨(foodCatChanged_post ⟨true, false, 0, 0, false, 90⟩ 0 50 (by decide) (by decide)).1.trans
      (by decide),
    (foodCatChanged_post ⟨true, false, 0, 0, false, 90⟩ 0 50 (by decide)
      (by decide)).2.1.trans (by decide),
    (foodCatChanged_post ⟨true, false, 0, 0, false, 90⟩ 0 50 (by decide)
      (by decide)).2.2.1.trans (by decide),
    (foodCatChanged_post ⟨true, false, 0, 0, false, 90⟩ 0 50 (by decide)
      (by decide)).2.2.2.1.trans (by decide)⟩,
   ⟨(foodCatChanged_post ⟨true, true, 0, 9000, false, 120⟩ 2000 0 (by decide)
      (by decide)).2.1.trans (by decide),
    (foodCatChanged_post ⟨true, true, 0, 9000, false, 120⟩ 2000 0 (by decide)
      (by decide)).2.2.1.trans (by decide),
    (foodCatChanged_post ⟨true, true, 0, 9000, false, 120⟩ 2000 0 (by decide)
      (by decide)).2.2.2.1.trans (by decide),
    (foodCatChanged_post ⟨true, true, 0, 9000, false, 120⟩ 2000 0 (by decide)
      (by decide)).2.2.2.2.1.trans (by decide)⟩⟩

/-! ## Expiry in the main loop -/

/-- C3 (counterexample): water armed at `now = 1000` with `percent = 10` has the
deadline 71000; the iteration of `loop` at clock value 71000, which is at the
deadline, leaves the relay on and the deadline in place. -/
theorem expiry_at_deadline_counterexample :
    (waterCatChanged (setup true).1 1000 (some ⟨10⟩)).1.waterMillis = 71000 ∧
    (waterCatChanged (setup true).1 1000 (some ⟨10⟩)).1.relay = true ∧
    (71000 : Nat) ≥ (waterCatChanged (setup true).1 1000 (some ⟨10⟩)).1.waterMillis ∧
    ¬ ((loop (waterCatChanged (setup true).1 1000 (some ⟨10⟩)).1
          (atClock true true 71000)).1.relay = false ∧
       (loop (waterCatChanged (setup true).1 1000 (some ⟨10⟩)).1
          (atClock true true 71000)).1.waterMillis = UINT32_MAX) ∧
    (loop (waterCatChanged (setup true).1 1000 (some ⟨10⟩)).1
          (atClock true true 71000)).1.relay = true ∧
    (loop (waterCatChanged (setup true).1 1000 (some ⟨10⟩)).1
          (atClock true true 71000)).1.waterMillis = 71000 := by
  decide

/-- C3 (amended): one iteration of `loop` at clock value `now` leaves the relay
and the water deadline as they were when `now <= waterMillis` and writes the
relay low and stores `UINT32_MAX` when `now > waterMillis`; it leaves
`foodServoOn` and the food deadline as they were when `now <= foodMillis`
(an active servo is then at 120 or 60) and sets `foodServoOn = false`, the servo
to 90 and the deadline to `UINT32_MAX` when `now > foodMillis`. -/
theorem loop_expiry_boundary (s : State) (w c : Bool) (now : Nat) :
    (now ≤ s.waterMillis →
      (loop s (atClock w c now)).1.relay = s.relay ∧
      (loop s (atClock w c now)).1.waterMillis = s.waterMillis ∧
      ∀ b, Effect.digitalWrite Pin.RELAY b ∉ (loop s (atClock w c now)).2) ∧
    (now > s.waterMillis →
      (loop s (atClock w c now)).1.relay = false ∧
      (loop s (atClock w c now)).1.waterMillis = UINT32_MAX ∧
      Effect.digitalWrite Pin.RELAY false ∈ (loop s (atClock w c now)).2) ∧
    (now ≤ s.foodMillis →
      (loop s (atClock w c now)).1.foodServoOn = s.foodServoOn ∧
      (loop s (atClock w c now)).1.foodMillis = s.foodMillis ∧
      (s.foodServoOn = true → (loop s (atClock w c now)).1.servo = 120 ∨
        (loop s (atClock w c now)).1.servo = 60)) ∧
    (now > s.foodMillis →
      (loop s (atClock w c now)).1.foodServoOn = false ∧
      (loop s (atClock w c now)).1.servo = 90 ∧
      (loop s (atClock w c now)).1.foodMillis = UINT32_MAX) :=
  loop_atClock_cases s w c now

/-- C3 (amended), the scenario of the specification with the boundary of the
code: water armed at `now = 1000` with `percent = 10` is still on, deadline
71000, after the iteration at 71000, and off, deadline `UINT32_MAX`, after the
iteration at 71001. -/
theorem loop_expiry_boundary_witness :
    ((71000 : Nat) ≤ (waterCatChanged (setup true).1 1000 (some ⟨10⟩)).1.waterMillis ∧
     (71001 : Nat) > (waterCatChanged (setup true).1 1000 (some ⟨10⟩)).1.waterMillis) ∧
    ((loop (waterCatChanged (setup true).1 1000 (some ⟨10⟩)).1
        (atClock true true 71000)).1.relay = true ∧
     (loop (waterCatChanged (setup true).1 1000 (some ⟨10⟩)).1
        (atClock true true 71000)).1.waterMillis = 71000) ∧
    ((loop (waterCatChanged (setup true).1 1000 (some ⟨10⟩)).1
        (atClock true true 71001)).1.relay = false ∧
     (loop (waterCatChanged (setup true).1 1000 (some ⟨10⟩)).1
        (atClock true true 71001)).1.waterMillis = UINT32_MAX) :=
  ⟨⟨by decide, by decide⟩,
   ⟨((loop_expiry_boundary (waterCatChanged (setup true).1 1000 (some ⟨10⟩)).1
        true true 71000).1 (by decide)).1.trans (by decide),
    ((loop_expiry_boundary (waterCatChanged (setup true).1 1000 (some ⟨10⟩)).1
        true true 71000).1 (by decide)).2.1.trans (by decide)⟩,
   ⟨((loop_expiry_boundary (waterCatChanged (setup true).1 1000 (some ⟨10⟩)).1
        true true 71001).2.1 (by decide)).1,
    ((loop_expiry_boundary (waterCatChanged (setup true).1 1000 (some ⟨10⟩)).1
        true true 71001).2.1 (by decide)).2.1⟩⟩

/-! ## Oscillation of the food servo -/

/-- C4: when the food actuator is active with a 32-bit deadline `d` and the
iteration of `loop` runs at a clock value `now <= d` (not expired), the servo is
left at 120 when `floor((d - now) / 1000) mod 2 = 0` and at 60 otherwise, and
that value is written by the iteration; the position is one of the two values,
is the same for two clock values with the same `floor((d - now) / 1000)`, and
unless the Wi-Fi reconnection branch (line 107) runs no other servo value is
written. -/
theorem loop_oscillation (s : State) (w c : Bool) (now : Nat)
    (hon : s.foodServoOn = true) (hd : s.foodMillis ≤ UINT32_MAX)
    (hne : now ≤ s.foodMillis) :
    (loop s (atClock w c now)).1.servo
      = (if ((s.foodMillis - now) / 1000) % 2 = 0 then 120 else 60) ∧
    Effect.servoWrite (if ((s.foodMillis - now) / 1000) % 2 = 0 then 120 else 60)
      ∈ (loop s (atClock w c now)).2 ∧
    ((loop s (atClock w c now)).1.servo = 120 ∨ (loop s (atClock w c now)).1.servo = 60) ∧
    (∀ now2, now2 ≤ s.foodMillis →
      (s.foodMillis - now2) / 1000 = (s.foodMillis - now) / 1000 →
      (loop s (atClock w c now2)).1.servo = (loop s (atClock w c now)).1.servo) ∧
    (∀ v, Effect.servoWrite v ∈ (loop s (atClock w c now)).2 →
      v = (if ((s.foodMillis - now) / 1000) % 2 = 0 then 120 else 60) ∨
      (v = 90 ∧ w = true ∧ s.wifiConnected = false)) ∧
    (loop s (atClock w c now)).1.foodServoOn = true := by
  have key : ∀ t, t ≤ s.foodMillis → (loop s (atClock w c t)).1.servo
      = (if ((s.foodMillis - t) / 1000) % 2 = 0 then 120 else 60) := by
    intro t ht
    have hn : ¬ (atClock w c t).millis2 > s.foodMillis := by
      show ¬ t > s.foodMillis
      omega
    rw [loop_servo, if_neg hn, if_pos hon]
    exact servoValue_of_le hd ht
  have hn : ¬ (atClock w c now).millis2 > s.foodMillis := by
    show ¬ now > s.foodMillis
    omega
  refine ⟨key now hne, ?_, ?_, ?_, ?_, ?_⟩
  · rw [loop_servo_write]
    exact Or.inl (key now hne).symm
  · rw [key now hne]
    by_cases hp : ((s.foodMillis - now) / 1000) % 2 = 0
    · simp [hp]
    · simp [hp]
  · intro now2 h2 heq
    rw [key now hne, key now2 h2, heq]
  · intro v hv
    rw [loop_servo_write, key now hne] at hv
    rcases hv with h | h | h
    · exact Or.inl h
    · exact absurd h.2 hn
    · exact Or.inr h
  · rw [loop_foodServoOn, if_neg hn, hon]

/-- C4, the scenario of the specification: after a food command at `now = 0`
with `percent = 50` (deadline 6000) the iteration at 500 leaves the servo at 60
and the iteration at 1500 leaves it at 120. -/
theorem loop_oscillation_witness :
    ((foodCatChanged (setup true).1 0 (some ⟨50⟩)).1.foodServoOn = true ∧
     (foodCatChanged (setup true).1 0 (some ⟨50⟩)).1.foodMillis = 6000 ∧
     (6000 : Nat) ≤ UINT32_MAX ∧ (500 : Nat) ≤ 6000 ∧ (1500 : Nat) ≤ 6000) ∧
    (loop (foodCatChanged (setup true).1 0 (some ⟨50⟩)).1 (atClock true true 500)).1.servo
      = 60 ∧
    (loop (foodCatChanged (setup true).1 0 (some ⟨50⟩)).1 (atClock true true 1500)).1.servo
      = 120 :=
  ⟨⟨by decide, by decide, by decide, by decide, by decide⟩,
   (loop_oscillation (foodCatChanged (setup true).1 0 (some ⟨50⟩)).1 true true 500
      (by decide) (by decide) (by decide)).1.trans (by decide),
   (loop_oscillation (foodCatChanged (setup true).1 0 (some ⟨50⟩)).1 true true 1500
      (by decide) (by decide) (by decide)).1.trans (by decide)⟩

/-- C10: in an iteration of `loop` whose food expiry check (line 125) and phase
expression (line 135) read the same clock value, the expiry check runs first
(the servo block runs in the state `servoEntry`), and whenever the phase
expression is evaluated, that is whenever `foodServoOn` is true on entry of the
servo block, the deadline is at least the clock value, so that the unsigned
subtraction `foodMillis - millis()` is the exact difference. -/
theorem loop_phase_no_wrap (s : State) (i : LoopInput)
    (hclock : i.millis2 = i.millis3) (hd : s.foodMillis ≤ UINT32_MAX)
    (heval : (servoEntry s i).foodServoOn = true) :
    (loop s i).1 = (loopServo (servoEntry s i) i.millis3).1 ∧
    (loop s i).1.servo = servoValue (servoEntry s i).foodMillis i.millis3 ∧
    (servoEntry s i).foodMillis = s.foodMillis ∧
    i.millis3 ≤ (servoEntry s i).foodMillis ∧
    sub32 (servoEntry s i).foodMillis i.millis3 = (servoEntry s i).foodMillis - i.millis3 := by
  have hw := loopWifi_fields s i
  have ha := loopWater_fields (loopWifi s i).1 i.millis1
  have hf := loopFood_fields (loopWater (loopWifi s i).1 i.millis1).1 i.millis2
  have hm : (loopWater (loopWifi s i).1 i.millis1).1.foodMillis = s.foodMillis := by
    rw [ha.2.2.1, hw.2.2.1]
  have hne : ¬ i.millis2 > s.foodMillis := by
    intro h
    have h2 := hf.2.2.2
    rw [hm, if_pos h] at h2
    have h3 : (servoEntry s i).foodServoOn = false := h2
    rw [heval] at h3
    exact Bool.noConfusion h3
  have hfm : (servoEntry s i).foodMillis = s.foodMillis := by
    have h2 := hf.2.2.1
    rw [hm, if_neg hne] at h2
    exact h2
  have hle : i.millis3 ≤ s.foodMillis := by omega
  refine ⟨rfl, ?_, hfm, ?_, ?_⟩
  · show (loopServo (servoEntry s i) i.millis3).1.servo = _
    rw [(loopServo_fields _ _).2.2.2.2, if_pos heval]
  · rw [hfm]; exact hle
  · rw [hfm]; exact sub32_of_le hd hle

/-- C10 at a concrete input: the active servo with deadline 6000 at the clock
value 6000, the last one before expiry. -/
theorem loop_phase_no_wrap_witness :
    ((atClock true true 6000).millis2 = (atClock true true 6000).millis3 ∧
     (foodCatChanged (setup true).1 0 (some ⟨50⟩)).1.foodMillis ≤ UINT32_MAX ∧
     (servoEntry (foodCatChanged (setup true).1 0 (some ⟨50⟩)).1
        (atClock true true 6000)).foodServoOn = true) ∧
    (atClock true true 6000).millis3 ≤
      (servoEntry (foodCatChanged (setup true).1 0 (some ⟨50⟩)).1
        (atClock true true 6000)).foodMillis ∧
    sub32 (servoEntry (foodCatChanged (setup true).1 0 (some ⟨50⟩)).1
        (atClock true true 6000)).foodMillis (atClock true true 6000).millis3
      = (servoEntry (foodCatChanged (setup true).1 0 (some ⟨50⟩)).1
        (atClock true true 6000)).foodMillis - (atClock true true 6000).millis3 :=
  ⟨⟨rfl, by decide, by decide⟩,
   (loop_phase_no_wrap (foodCatChanged (setup true).1 0 (some ⟨50⟩)).1
      (atClock true true 6000) rfl (by decide) (by decide)).2.2.2.1,
   (loop_phase_no_wrap (foodCatChanged (setup true).1 0 (some ⟨50⟩)).1
      (atClock true true 6000) rfl (by decide) (by decide)).2.2.2.2⟩

/-! ## Clock wraparound -/

/-- C5 (counterexample): a water command at `now = 4294967000` with
`percent = 10` has `now + delay = 4295037000 > UINT32_MAX`; the stored deadline
is 69704 and the iteration of `loop` one millisecond after arming, at
4294967001, already turns the relay off and clears the deadline. -/
theorem wraparound_counterexample :
    4294967000 + waterDelta 10 > UINT32_MAX ∧
    4294967001 - 4294967000 < waterDelta 10 ∧
    (waterCatChanged (setup true).1 4294967000 (some ⟨10⟩)).1.waterMillis = 69704 ∧
    (waterCatChanged (setup true).1 4294967000 (some ⟨10⟩)).1.relay = true ∧
    (loop (waterCatChanged (setup true).1 4294967000 (some ⟨10⟩)).1
      (atClock true true 4294967001)).1.relay = false ∧
    (loop (waterCatChanged (setup true).1 4294967000 (some ⟨10⟩)).1
      (atClock true true 4294967001)).1.waterMillis = UINT32_MAX ∧
    Effect.serialPrintln "Turn off the water relay." ∈
      (loop (waterCatChanged (setup true).1 4294967000 (some ⟨10⟩)).1
        (atClock true true 4294967001)).2 := by
  decide

/-- C5 (amended): when a command with percent in 0..100 arrives at a 32-bit
clock value `now` with `now + delay > UINT32_MAX`, the stored deadline is
`now + delay - 2^32`, which is below `now` and below `delay`; `loop` compares
the raw values, so an iteration at clock value `t` expires the actuator when
`t` is above the stored deadline, in particular at every `t >= now`, and does not
expire it when `t` is at most the stored deadline. -/
theorem wraparound_expiry (s : State) (now percent : Nat) (w c : Bool)
    (hnow : now ≤ UINT32_MAX) (hp : percent ≤ 100) :
    (now + waterDelta percent > UINT32_MAX →
      (waterCatChanged s now (some ⟨percent⟩)).1.waterMillis
        = now + waterDelta percent - 4294967296 ∧
      (waterCatChanged s now (some ⟨percent⟩)).1.waterMillis < now ∧
      (waterCatChanged s now (some ⟨percent⟩)).1.waterMillis < waterDelta percent ∧
      (∀ t, (t > (waterCatChanged s now (some ⟨percent⟩)).1.waterMillis ∨ t ≥ now) →
        (loop (waterCatChanged s now (some ⟨percent⟩)).1 (atClock w c t)).1.relay = false ∧
        (loop (waterCatChanged s now (some ⟨percent⟩)).1 (atClock w c t)).1.waterMillis
          = UINT32_MAX) ∧
      (∀ t, t ≤ (waterCatChanged s now (some ⟨percent⟩)).1.waterMillis →
        (loop (waterCatChanged s now (some ⟨percent⟩)).1 (atClock w c t)).1.relay
          = (waterCatChanged s now (some ⟨percent⟩)).1.relay ∧
        (loop (waterCatChanged s now (some ⟨percent⟩)).1 (atClock w c t)).1.waterMillis
          = (waterCatChanged s now (some ⟨percent⟩)).1.waterMillis)) ∧
    (now + foodDelta percent > UINT32_MAX →
      (foodCatChanged s now (some ⟨percent⟩)).1.foodMillis
        = now + foodDelta percent - 4294967296 ∧
      (foodCatChanged s now (some ⟨percent⟩)).1.foodMillis < now ∧
      (foodCatChanged s now (some ⟨percent⟩)).1.foodMillis < foodDelta percent ∧
      (∀ t, (t > (foodCatChanged s now (some ⟨percent⟩)).1.foodMillis ∨ t ≥ now) →
        (loop (foodCatChanged s now (some ⟨percent⟩)).1 (atClock w c t)).1.foodServoOn = false ∧
        (loop (foodCatChanged s now (some ⟨percent⟩)).1 (atClock w c t)).1.servo = 90 ∧
        (loop (foodCatChanged s now (some ⟨percent⟩)).1 (atClock w c t)).1.foodMillis
          = UINT32_MAX) ∧
      (∀ t, t ≤ (foodCatChanged s now (some ⟨percent⟩)).1.foodMillis →
        (loop (foodCatChanged s now (some ⟨percent⟩)).1 (atClock w c t)).1.foodServoOn
          = (foodCatChanged s now (some ⟨percent⟩)).1.foodServoOn ∧
        (loop (foodCatChanged s now (some ⟨percent⟩)).1 (atClock w c t)).1.foodMillis
          = (foodCatChanged s now (some ⟨percent⟩)).1.foodMillis)) := by
  have h8 : u8 percent = percent := u8_of_le (by omega)
  have hwd : waterDelta percent = 60000 + percent * 1000 := waterDelta_of_le (by omega)
  have hfd : foodDelta percent = 1000 + percent * 100 := foodDelta_of_le (by omega)
  unfold UINT32_MAX at hnow
  constructor
  · intro hwrap
    unfold UINT32_MAX at hwrap
    have hst : (waterCatChanged s now (some ⟨percent⟩)).1.waterMillis
        = now + waterDelta percent - 4294967296 := by
      show u32 (now + waterDelta (u8 percent)) = _
      rw [h8]
      unfold u32
      omega
    refine ⟨hst, by omega, by omega, ?_, ?_⟩
    · intro t ht
      have hgt : t > (waterCatChanged s now (some ⟨percent⟩)).1.waterMillis := by omega
      have hb := loop_atClock_cases (waterCatChanged s now (some ⟨percent⟩)).1 w c t
      exact ⟨(hb.2.1 hgt).1, (hb.2.1 hgt).2.1⟩
    · intro t ht
      have hb := loop_atClock_cases (waterCatChanged s now (some ⟨percent⟩)).1 w c t
      exact ⟨(hb.1 ht).1, (hb.1 ht).2.1⟩
  · intro hwrap
    unfold UINT32_MAX at hwrap
    have hst : (foodCatChanged s now (some ⟨percent⟩)).1.foodMillis
        = now + foodDelta percent - 4294967296 := by
      show u32 (now + foodDelta (u8 percent)) = _
      rw [h8]
      unfold u32
      omega
    refine ⟨hst, by omega, by omega, ?_, ?_⟩
    · intro t ht
      have hgt : t > (foodCatChanged s now (some ⟨percent⟩)).1.foodMillis := by omega
      have hb := loop_atClock_cases (foodCatChanged s now (some ⟨percent⟩)).1 w c t
      exact hb.2.2.2 hgt
    · intro t ht
      have hb := loop_atClock_cases (foodCatChanged s now (some ⟨percent⟩)).1 w c t
      exact ⟨(hb.2.2.1 ht).1, (hb.2.2.1 ht).2.1⟩

/-- C5 (amended) at concrete inputs: commands at `now = 4294967000` with
`percent = 10`. The water deadline is stored as 69704 and the food deadline as
1704; the iteration at 4294967001 expires both. -/
theorem wraparound_expiry_witness :
    ((4294967000 : Nat) ≤ UINT32_MAX ∧ (10 : Nat) ≤ 100 ∧
     4294967000 + waterDelta 10 > UINT32_MAX ∧ 4294967000 + foodDelta 10 > UINT32_MAX) ∧
    ((waterCatChanged (setup true).1 4294967000 (some ⟨10⟩)).1.waterMillis = 69704 ∧
     (loop (waterCatChanged (setup true).1 4294967000 (some ⟨10⟩)).1
        (atClock true true 4294967001)).1.relay = false ∧
     (loop (waterCatChanged (setup true).1 4294967000 (some ⟨10⟩)).1
        (atClock true true 4294967001)).1.waterMillis = UINT32_MAX) ∧
    ((foodCatChanged (setup true).1 4294967000 (some ⟨10⟩)).1.foodMillis = 1704 ∧
     (loop (foodCatChanged (setup true).1 4294967000 (some ⟨10⟩)).1
        (atClock true true 4294967001)).1.foodServoOn = false ∧
     (loop (foodCatChanged (setup true).1 4294967000 (some ⟨10⟩)).1
        (atClock true true 4294967001)).1.servo = 90) :=
  ⟨⟨by decide, by decide, by decide, by decide⟩,
   ⟨((wraparound_expiry (setup true).1 4294967000 10 true true (by decide) (by decide)).1
        (by decide)).1.trans (by decide),
    (((wraparound_expiry (setup true).1 4294967000 10 true true (by decide) (by decide)).1
        (by decide)).2.2.2.1 4294967001 (Or.inr (by decide))).1,
    (((wraparound_expiry (setup true).1 4294967000 10 true true (by decide) (by decide)).1
        (by decide)).2.2.2.1 4294967001 (Or.inr (by decide))).2⟩,
   ⟨((wraparound_expiry (setup true).1 4294967000 10 true true (by decide) (by decide)).2
        (by decide)).1.trans (by decide),
    (((wraparound_expiry (setup true).1 4294967000 10 true true (by decide) (by decide)).2
        (by decide)).2.2.2.1 4294967001 (Or.inr (by decide))).1,
    (((wraparound_expiry (setup true).1 4294967000 10 true true (by decide) (by decide)).2
        (by decide)).2.2.2.1 4294967001 (Or.inr (by decide))).2.1⟩⟩

/-! ## Replacement of the deadline -/

/-- C6: a command B issued after a command A to the same actuator leaves exactly
the state and effects of B issued alone; the actuator's variables after B are
the same from every prior state (whatever ran between A and B), with deadline
`(B.now + B.delay) mod 2^32`; the next iteration of `loop` takes the expiry
branch iff its clock reading is above that deadline. -/
theorem last_command_wins (s s2 : State) (nowA nowB : Nat) (dA : Option EspalexaDevice)
    (devB : EspalexaDevice) (i : LoopInput) :
    (waterCatChanged (waterCatChanged s nowA dA).1 nowB (some devB)
      = waterCatChanged s nowB (some devB) ∧
     foodCatChanged (foodCatChanged s nowA dA).1 nowB (some devB)
      = foodCatChanged s nowB (some devB)) ∧
    ((waterCatChanged s nowB (some devB)).1.waterMillis
      = u32 (nowB + waterDelta (u8 devB.getPercent)) ∧
     (foodCatChanged s nowB (some devB)).1.foodMillis
      = u32 (nowB + foodDelta (u8 devB.getPercent))) ∧
    ((waterCatChanged s2 nowB (some devB)).1.waterMillis
      = (waterCatChanged s nowB (some devB)).1.waterMillis ∧
     (waterCatChanged s2 nowB (some devB)).1.relay
      = (waterCatChanged s nowB (some devB)).1.relay ∧
     (waterCatChanged s2 nowB (some devB)).2 = (waterCatChanged s nowB (some devB)).2) ∧
    ((foodCatChanged s2 nowB (some devB)).1.foodMillis
      = (foodCatChanged s nowB (some devB)).1.foodMillis ∧
     (foodCatChanged s2 nowB (some devB)).1.foodServoOn
      = (foodCatChanged s nowB (some devB)).1.foodServoOn ∧
     (foodCatChanged s2 nowB (some devB)).1.servo
      = (foodCatChanged s nowB (some devB)).1.servo ∧
     (foodCatChanged s2 nowB (some devB)).2 = (foodCatChanged s nowB (some devB)).2) ∧
    ((Effect.serialPrintln "Turn off the water relay." ∈
        (loop (waterCatChanged (waterCatChanged s nowA dA).1 nowB (some devB)).1 i).2
      ↔ i.millis1 > u32 (nowB + waterDelta (u8 devB.getPercent))) ∧
     (Effect.serialPrintln "Turn off the food servo." ∈
        (loop (foodCatChanged (foodCatChanged s nowA dA).1 nowB (some devB)).1 i).2
      ↔ i.millis2 > u32 (nowB + foodDelta (u8 devB.getPercent)))) := by
  refine ⟨⟨?_, ?_⟩, ⟨rfl, rfl⟩, ⟨rfl, rfl, rfl⟩, ⟨rfl, rfl, rfl, rfl⟩, ⟨?_, ?_⟩⟩
  · cases dA <;> rfl
  · cases dA <;> rfl
  · rw [loop_water_message]
    cases dA <;> exact Iff.rfl
  · rw [loop_food_message]
    cases dA <;> exact Iff.rfl

/-! ## Idempotence of expiry -/

/-- C7: after an iteration of `loop` in which the water relay expired
(`millis() > waterMillis`), every further sequence of iterations at 32-bit
clock values leaves `waterMillis = UINT32_MAX` and the relay off, never writes
the relay and never prints the turn-off message again; after an iteration in
which the food servo expired, every further sequence leaves
`foodMillis = UINT32_MAX`, `foodServoOn = false` and the servo at 90, writes
only 90 to the servo and never prints the turn-off message again. -/
theorem expiry_idempotent (s : State) (i : LoopInput) (js : List LoopInput)
    (hjs : ∀ j ∈ js, j.clock32) :
    (i.millis1 > s.waterMillis →
      ((loop s i).1.waterMillis = UINT32_MAX ∧ (loop s i).1.relay = false) ∧
      (run (loop s i).1 js).1.waterMillis = UINT32_MAX ∧
      (run (loop s i).1 js).1.relay = false ∧
      ∀ e ∈ (run (loop s i).1 js).2, (∀ b, e ≠ Effect.digitalWrite Pin.RELAY b) ∧
        e ≠ Effect.serialPrintln "Turn off the water relay.") ∧
    (i.millis2 > s.foodMillis →
      ((loop s i).1.foodMillis = UINT32_MAX ∧ (loop s i).1.foodServoOn = false ∧
        (loop s i).1.servo = 90) ∧
      (run (loop s i).1 js).1.foodMillis = UINT32_MAX ∧
      (run (loop s i).1 js).1.foodServoOn = false ∧
      (run (loop s i).1 js).1.servo = 90 ∧
      ∀ e ∈ (run (loop s i).1 js).2, (∀ v, e = Effect.servoWrite v → v = 90) ∧
        e ≠ Effect.serialPrintln "Turn off the food servo.") := by
  constructor
  · intro h
    have hm : (loop s i).1.waterMillis = UINT32_MAX := by rw [loop_waterMillis, if_pos h]
    have hr : (loop s i).1.relay = false := by rw [loop_relay, if_pos h]
    exact ⟨⟨hm, hr⟩, run_water_idle js (loop s i).1 hjs hm hr⟩
  · intro h
    have hm : (loop s i).1.foodMillis = UINT32_MAX := by rw [loop_foodMillis, if_pos h]
    have hr : (loop s i).1.foodServoOn = false := by rw [loop_foodServoOn, if_pos h]
    have hs : (loop s i).1.servo = 90 := by rw [loop_servo, if_pos h]
    exact ⟨⟨hm, hr, hs⟩, run_food_idle js (loop s i).1 hjs hm hr hs⟩

/-- C7 at a concrete input: water armed at 1000 with percent 10 and food armed
at 0 with percent 50 both expire in the iteration at 71001; two further
iterations, at 71002 and at `UINT32_MAX`, leave both actuators idle. -/
theorem expiry_idempotent_witness :
    (∀ j ∈ [atClock true true 71002, atClock true true UINT32_MAX], j.clock32) ∧
    ((atClock true true 71001).millis1 >
      (foodCatChanged (waterCatChanged (setup true).1 1000 (some ⟨10⟩)).1 0
        (some ⟨50⟩)).1.waterMillis ∧
     (atClock true true 71001).millis2 >
      (foodCatChanged (waterCatChanged (setup true).1 1000 (some ⟨10⟩)).1 0
        (some ⟨50⟩)).1.foodMillis) ∧
    ((run (loop (foodCatChanged (waterCatChanged (setup true).1 1000 (some ⟨10⟩)).1 0
        (some ⟨50⟩)).1 (atClock true true 71001)).1
        [atClock true true 71002, atClock true true UINT32_MAX]).1.waterMillis = UINT32_MAX ∧
     (run (loop (foodCatChanged (waterCatChanged (setup true).1 1000 (some ⟨10⟩)).1 0
        (some ⟨50⟩)).1 (atClock true true 71001)).1
        [atClock true true 71002, atClock true true UINT32_MAX]).1.relay = false) ∧
    ((run (loop (foodCatChanged (waterCatChanged (setup true).1 1000 (some ⟨10⟩)).1 0
        (some ⟨50⟩)).1 (atClock true true 71001)).1
        [atClock true true 71002, atClock true true UINT32_MAX]).1.foodMillis = UINT32_MAX ∧
     (run (loop (foodCatChanged (waterCatChanged (setup true).1 1000 (some ⟨10⟩)).1 0
        (some ⟨50⟩)).1 (atClock true true 71001)).1
        [atClock true true 71002, atClock true true UINT32_MAX]).1.foodServoOn = false) :=
  have hjs : ∀ j ∈ [atClock true true 71002, atClock true true UINT32_MAX], j.clock32 := by
    intro j hj
    simp only [List.mem_cons, List.mem_singleton, List.not_mem_nil, or_false] at hj
    rcases hj with h | h <;> subst h <;> exact ⟨by decide, by decide, by decide⟩
  ⟨hjs, ⟨by decide, by decide⟩,
   ⟨((expiry_idempotent _ (atClock true true 71001) _ hjs).1 (by decide)).2.1,
    ((expiry_idempotent _ (atClock true true 71001) _ hjs).1 (by decide)).2.2.1⟩,
   ⟨((expiry_idempotent _ (atClock true true 71001) _ hjs).2 (by decide)).2.1,
    ((expiry_idempotent _ (atClock true true 71001) _ hjs).2 (by decide)).2.2.1⟩⟩

/-! ## Active actuators and the stored deadline -/

/-- C8 (counterexample): from the state left by `setup`, a food command with
`percent = 1` at the clock value 4294966195 stores the deadline
`4294966195 + 1100 = UINT32_MAX` with `foodServoOn = true`, and a water command
with `percent = 1` at 4294906295 stores `UINT32_MAX` with the relay on; the
iteration of `loop` at `UINT32_MAX` leaves both active. -/
theorem active_deadline_counterexample :
    (Event.inRange (Event.food 4294966195 (some ⟨1⟩)) = true ∧
     Event.inRange (Event.water 4294906295 (some ⟨1⟩)) = true ∧
     Event.inRange (Event.tick (atClock true true UINT32_MAX)) = true) ∧
    ((exec (setup true).1 [Event.food 4294966195 (some ⟨1⟩)]).foodServoOn = true ∧
     (exec (setup true).1 [Event.food 4294966195 (some ⟨1⟩)]).foodMillis = UINT32_MAX) ∧
    ((exec (setup true).1 [Event.water 4294906295 (some ⟨1⟩)]).relay = true ∧
     (exec (setup true).1 [Event.water 4294906295 (some ⟨1⟩)]).waterMillis = UINT32_MAX) ∧
    ((exec (setup true).1 [Event.food 4294966195 (some ⟨1⟩),
        Event.water 4294906295 (some ⟨1⟩),
        Event.tick (atClock true true UINT32_MAX)]).foodServoOn = true ∧
     (exec (setup true).1 [Event.food 4294966195 (some ⟨1⟩),
        Event.water 4294906295 (some ⟨1⟩),
        Event.tick (atClock true true UINT32_MAX)]).foodMillis = UINT32_MAX ∧
     (exec (setup true).1 [Event.food 4294966195 (some ⟨1⟩),
        Event.water 4294906295 (some ⟨1⟩),
        Event.tick (atClock true true UINT32_MAX)]).relay = true ∧
     (exec (setup true).1 [Event.food 4294966195 (some ⟨1⟩),
        Event.water 4294906295 (some ⟨1⟩),
        Event.tick (atClock true true UINT32_MAX)]).waterMillis = UINT32_MAX) := by
  decide

/-- C8 (amended): in every state reached from the state left by `setup` by a
sequence of callbacks and iterations of `loop` in which no command computes the
deadline `(millis() + delta) mod 2^32 = UINT32_MAX`, `foodServoOn = true`
implies `foodMillis != UINT32_MAX` and a relay that is on implies
`waterMillis != UINT32_MAX`. -/
theorem active_deadline_invariant (connect : Bool) (evs : List Event)
    (hev : ∀ e ∈ evs, e.armsSentinel = false) :
    ((exec (setup connect).1 evs).foodServoOn = true →
      (exec (setup connect).1 evs).foodMillis ≠ UINT32_MAX) ∧
    ((exec (setup connect).1 evs).relay = true →
      (exec (setup connect).1 evs).waterMillis ≠ UINT32_MAX) :=
  exec_active_deadline evs (setup connect).1 hev
    ⟨fun h => Bool.noConfusion h, fun h => Bool.noConfusion h⟩

/-- C8 (amended) at a concrete run: a water command at 1000 with percent 10, a
food command at 2000 with percent 50 and an iteration of `loop` at 2500 leave
both actuators active with deadlines 71000 and 8000. -/
theorem active_deadline_invariant_witness :
    (∀ e ∈ [Event.water 1000 (some ⟨10⟩), Event.food 2000 (some ⟨50⟩),
        Event.tick (atClock true true 2500)], e.armsSentinel = false) ∧
    ((exec (setup true).1 [Event.water 1000 (some ⟨10⟩), Event.food 2000 (some ⟨50⟩),
        Event.tick (atClock true true 2500)]).foodServoOn = true ∧
     (exec (setup true).1 [Event.water 1000 (some ⟨10⟩), Event.food 2000 (some ⟨50⟩),
        Event.tick (atClock true true 2500)]).relay = true) ∧
    ((exec (setup true).1 [Event.water 1000 (some ⟨10⟩), Event.food 2000 (some ⟨50⟩),
        Event.tick (atClock true true 2500)]).foodMillis ≠ UINT32_MAX ∧
     (exec (setup true).1 [Event.water 1000 (some ⟨10⟩), Event.food 2000 (some ⟨50⟩),
        Event.tick (atClock true true 2500)]).waterMillis ≠ UINT32_MAX) :=
  have hev : ∀ e ∈ [Event.water 1000 (some ⟨10⟩), Event.food 2000 (some ⟨50⟩),
      Event.tick (atClock true true 2500)], e.armsSentinel = false := by
    intro e he
    simp only [List.mem_cons, List.mem_singleton, List.not_mem_nil, or_false] at he
    rcases he with h | h | h <;> subst h <;> decide
  ⟨hev, ⟨by decide, by decide⟩,
   ⟨(active_deadline_invariant true _ hev).1 (by decide),
    (active_deadline_invariant true _ hev).2 (by decide)⟩⟩

/-! ## Percent values above 100 -/

/-- C9 (counterexample): with the 8-bit percent value 200 the water delay is
260000 ms and the food delay 21000 ms, above 160000 and 11000, and the
callbacks do not act as with `min 200 100 = 100`. -/
theorem clamping_counterexample :
    (200 : Nat) ≤ 255 ∧
    waterDelta (u8 200) = 260000 ∧ ¬ waterDelta (u8 200) ≤ 160000 ∧
    foodDelta (u8 200) = 21000 ∧ ¬ foodDelta (u8 200) ≤ 11000 ∧
    (waterCatChanged (setup true).1 0 (some ⟨200⟩)).1.waterMillis = 260000 ∧
    (waterCatChanged (setup true).1 0 (some ⟨min 200 100⟩)).1.waterMillis = 160000 ∧
    waterCatChanged (setup true).1 0 (some ⟨200⟩)
      ≠ waterCatChanged (setup true).1 0 (some ⟨min 200 100⟩) ∧
    (foodCatChanged (setup true).1 0 (some ⟨200⟩)).1.foodMillis = 21000 ∧
    (foodCatChanged (setup true).1 0 (some ⟨min 200 100⟩)).1.foodMillis = 11000 ∧
    foodCatChanged (setup true).1 0 (some ⟨200⟩)
      ≠ foodCatChanged (setup true).1 0 (some ⟨min 200 100⟩) := by
  refine ⟨by decide, by decide, by decide, by decide, by decide, by decide, by decide, ?_,
    by decide, by decide, ?_⟩
  · intro h
    have h2 := congrArg (fun r => r.1.waterMillis) h
    revert h2
    decide
  · intro h
    have h2 := congrArg (fun r => r.1.foodMillis) h
    revert h2
    decide

/-- C9 (amended): for every 8-bit percent value the callbacks process the
command without clamping: the delay is `60000 + percent * 1000` (at most
315000) for water and `1000 + percent * 100` (at most 26500) for food, the
deadline is `(now + delay) mod 2^32`, and the driver is written on iff
`percent != 0`; for percent in 0..100 this is the effect of the command with
`min(percent, 100)`, with delays at most 160000 and 11000. -/
theorem percent_unclamped (s : State) (now percent : Nat) (hp : percent ≤ 255) :
    (waterDelta (u8 percent) = 60000 + percent * 1000 ∧
     waterDelta (u8 percent) ≤ 315000 ∧
     (waterCatChanged s now (some ⟨percent⟩)).1.waterMillis
       = (now + (60000 + percent * 1000)) % 2 ^ 32 ∧
     (waterCatChanged s now (some ⟨percent⟩)).1.relay = decide (percent ≠ 0) ∧
     (waterCatChanged s now (some ⟨percent⟩)).2.head?
       = some (Effect.digitalWrite Pin.RELAY (decide (percent ≠ 0)))) ∧
    (foodDelta (u8 percent) = 1000 + percent * 100 ∧
     foodDelta (u8 percent) ≤ 26500 ∧
     (foodCatChanged s now (some ⟨percent⟩)).1.foodMillis
       = (now + (1000 + percent * 100)) % 2 ^ 32 ∧
     (foodCatChanged s now (some ⟨percent⟩)).1.foodServoOn = decide (percent ≠ 0) ∧
     (foodCatChanged s now (some ⟨percent⟩)).2.head?
       = some (Effect.servoWrite (if percent = 0 then 90 else 120))) ∧
    (percent ≤ 100 →
      waterCatChanged s now (some ⟨percent⟩) = waterCatChanged s now (some ⟨min percent 100⟩) ∧
      foodCatChanged s now (some ⟨percent⟩) = foodCatChanged s now (some ⟨min percent 100⟩) ∧
      waterDelta (u8 percent) ≤ 160000 ∧ foodDelta (u8 percent) ≤ 11000) := by
  have h8 : u8 percent = percent := u8_of_le hp
  have hwd : waterDelta percent = 60000 + percent * 1000 := waterDelta_of_le hp
  have hfd : foodDelta percent = 1000 + percent * 100 := foodDelta_of_le hp
  rw [h8, hwd, hfd]
  refine ⟨⟨rfl, by omega, ?_, ?_, ?_⟩, ⟨rfl, by omega, ?_, ?_, ?_⟩, ?_⟩
  · show u32 (now + waterDelta (u8 percent)) = _
    rw [h8, hwd]
    rfl
  · show (if u8 percent == 0 then false else true) = _
    rw [h8]
    by_cases h : percent = 0 <;> simp [h]
  · show some (Effect.digitalWrite Pin.RELAY (if u8 percent == 0 then false else true)) = _
    rw [h8]
    by_cases h : percent = 0 <;> simp [h]
  · show u32 (now + foodDelta (u8 percent)) = _
    rw [h8, hfd]
    rfl
  · show (if u8 percent != 0 then true else false) = _
    rw [h8]
    by_cases h : percent = 0 <;> simp [h]
  · show some (Effect.servoWrite (if u8 percent == 0 then 90 else 120)) = _
    rw [h8]
    by_cases h : percent = 0 <;> simp [h]
  · intro h100
    rw [Nat.min_eq_left h100]
    exact ⟨rfl, rfl, by omega, by omega⟩

/-- C9 (amended) at concrete inputs: percent 200 gives the water delay 260000
and percent 100 the water delay 160000. -/
theorem percent_unclamped_witness :
    ((200 : Nat) ≤ 255 ∧ (100 : Nat) ≤ 255 ∧ (100 : Nat) ≤ 100) ∧
    (waterDelta (u8 200) = 60000 + 200 * 1000 ∧
     (waterCatChanged (setup true).1 0 (some ⟨200⟩)).1.waterMillis
       = (0 + (60000 + 200 * 1000)) % 2 ^ 32) ∧
    (waterDelta (u8 100) ≤ 160000 ∧ foodDelta (u8 100) ≤ 11000) :=
  ⟨⟨by decide, by decide, by decide⟩,
   ⟨(percent_unclamped (setup true).1 0 200 (by decide)).1.1,
    (percent_unclamped (setup true).1 0 200 (by decide)).1.2.2.1⟩,
   ⟨((percent_unclamped (setup true).1 0 100 (by decide)).2.2 (by decide)).2.2.1,
    ((percent_unclamped (setup true).1 0 100 (by decide)).2.2 (by decide)).2.2.2⟩⟩

end AlexaPet
